import Mathlib

/-!
Verification of the portfolio monitoring strategy (MonitoringStrategy.py and
MonitoringStrategyMock.py): the indicator-to-signal derivation and dispatch
pipeline. Indicator values that may be NaN or absent in a pandas row are
embedded as `Option ℚ` (with `none` standing for "undefined": a missing key or
a NaN, both of which `pd.isna` reports as true); numeric literals of the
source are carried over as exact rationals.
-/

namespace Monitoring

/-- An indicator row (`dataframe.iloc[k]` viewed as a dict): each lookup
`row.get(name)` either yields a defined numeric value (`some v`) or is
undefined (`none`, covering both a missing key and a NaN entry). -/
structure IndicatorRow where
  rsi : Option ℚ := none
  macd : Option ℚ := none
  macdsignal : Option ℚ := none
  close : Option ℚ := none
  bb_upper : Option ℚ := none
  bb_middle : Option ℚ := none
  bb_lower : Option ℚ := none
  ma_20 : Option ℚ := none
  ma_50 : Option ℚ := none
  ema_12 : Option ℚ := none
  ema_26 : Option ℚ := none
  volume : Option ℚ := none
  volume_sma : Option ℚ := none
deriving Repr, DecidableEq

/-- The empty dict `{}` passed as `previous` by `_calculate_signal_strength`:
every `get` returns None, hence every field is undefined. -/
def emptyRow : IndicatorRow := {}

/-- The four string constants `_determine_macd_status` can return. -/
inductive MacdStatus where
  | bullish_crossover
  | bearish_crossover
  | bearish_divergence
  | neutral
deriving Repr, DecidableEq

/-- The five string constants `_determine_bb_position` can return. -/
inductive BBPosition where
  | lower_band_bounce
  | upper_band_bounce
  | upper_band
  | lower_band
  | middle_band
deriving Repr, DecidableEq

/-- `MonitoringStrategy._determine_macd_status(current, previous)`:
returns `neutral` when any of the four macd/macdsignal values is undefined,
otherwise classifies by the source's if/elif chain. -/
def determine_macd_status (current previous : IndicatorRow) : MacdStatus :=
  match current.macd, current.macdsignal, previous.macd, previous.macdsignal with
  | some curr_macd, some curr_signal, some prev_macd, some prev_signal =>
    if prev_macd ≤ prev_signal ∧ curr_macd > curr_signal then .bullish_crossover
    else if prev_macd ≥ prev_signal ∧ curr_macd < curr_signal then .bearish_crossover
    else if curr_macd < curr_signal then .bearish_divergence
    else .neutral
  | _, _, _, _ => .neutral

/-- `MonitoringStrategy._determine_bb_position(current)`: returns
`middle_band` when close, bb_upper or bb_lower is undefined, otherwise
classifies by the source's if/elif chain (first match wins). -/
def determine_bb_position (current : IndicatorRow) : BBPosition :=
  match current.close, current.bb_upper, current.bb_lower with
  | some price, some bb_upper, some bb_lower =>
    if price ≤ bb_lower * 1.001 then .lower_band_bounce
    else if price ≥ bb_upper * 0.999 then .upper_band_bounce
    else if price > bb_upper then .upper_band
    else if price < bb_lower then .lower_band
    else .middle_band
  | _, _, _ => .middle_band

/-- The Python substring test `'bullish' in status` on the four possible
return strings of `_determine_macd_status`: only `"bullish_crossover"`
contains `"bullish"`. -/
def statusContainsBullish : MacdStatus → Bool
  | .bullish_crossover => true
  | _ => false

/-- The Python substring test `'bearish' in status` on the four possible
return strings of `_determine_macd_status`: `"bearish_crossover"` and
`"bearish_divergence"` contain `"bearish"`. -/
def statusContainsBearish : MacdStatus → Bool
  | .bearish_crossover => true
  | .bearish_divergence => true
  | _ => false

/-- Discrete signal strength levels of the spec's SignalEvent. -/
inductive Strength where
  | low
  | medium
  | high
deriving Repr, DecidableEq

/-- Modelled from the spec: the discrete SignalEvent form
`{type, message, value, strength}`; the message and numeric payload carry no
decision logic, so only the type tag and strength are kept. The
discrete-event classifier variant is not present under src/ (only the
portfolio-signal variant is), so these events are modelled from the spec. -/
structure SignalEvent where
  type : String
  strength : Strength
deriving Repr, DecidableEq

/-- `MonitoringStrategy._calculate_signal_strength(current, signals)`:
starts at 0.5, adds the RSI, MACD, volume and signal-count contributions in
the source's order, then clamps with `min(1.0, max(0.0, score))`. The MACD
status is computed as `self._determine_macd_status(current, {})`, i.e.
against the empty dict, exactly as in the source. -/
def calculate_signal_strength (current : IndicatorRow) (signals : List SignalEvent) : ℚ :=
  let s0 : ℚ := 0.5
  let s1 : ℚ :=
    match current.rsi with
    | some rsi => if rsi < 30 then s0 + 0.2 else if rsi > 70 then s0 + 0.1 else s0
    | none => s0
  let macd_status := determine_macd_status current emptyRow
  let s2 : ℚ :=
    if statusContainsBullish macd_status then s1 + 0.15
    else if statusContainsBearish macd_status then s1 + 0.1
    else s1
  let s3 : ℚ :=
    match current.volume, current.volume_sma with
    | some v, some vs => if v > vs * 1.5 then s2 + 0.1 else s2
    | _, _ => s2
  let s4 : ℚ := if signals.length > 2 then s3 + 0.05 else s3
  min 1 (max 0 s4)

/-- Per-instance mutable state of `MonitoringStrategy`: the rate-limiter
timestamps set up in `__init__` (`last_signals` dict and
`last_portfolio_signal`, initially None). Timestamps are rationals (seconds);
`none` is Python's None. -/
structure StrategyState where
  last_portfolio_signal : Option ℚ
  last_signals : List (String × ℚ)
deriving Repr, DecidableEq

/-- Outcome of the HTTP POST in `_send_portfolio_webhook`: a raised
`requests` exception (transport failure), or a response with a status code
and the application-level success flag parsed from the body (`none` when
`response.json()` parsing fails or the flag is absent). -/
inductive HttpOutcome where
  | transportError
  | response (status : Nat) (bodySuccess : Option Bool)
deriving Repr, DecidableEq

/-- `MonitoringStrategy._send_portfolio_webhook`: the only state mutation is
`self.last_portfolio_signal = current_time`, executed exactly on the branch
`response.status_code == 200`; the body-parse block below it only prints, and
both exception handlers leave the state untouched. -/
def send_portfolio_webhook (st : StrategyState) (outcome : HttpOutcome)
    (now : ℚ) : StrategyState :=
  match outcome with
  | .transportError => st
  | .response status _ =>
    if status = 200 then { st with last_portfolio_signal := some now } else st

/-- `PORTFOLIO_COINS` of both strategy classes. -/
def PORTFOLIO_COINS : List String :=
  ["BTC/USDT", "ETH/USDT", "ADA/USDT", "DOT/USDT", "LINK/USDT", "MATIC/USDT"]

/-- `_extract_coin_symbol`: `pair.split('/')[0]`. -/
def extract_coin_symbol (pair : String) : String :=
  (pair.splitOn "/").headD ""

/-- `_get_portfolio_coins_list`. -/
def get_portfolio_coins_list : List String :=
  PORTFOLIO_COINS.map extract_coin_symbol

/-- The outbound portfolio signal dict built in `_check_and_send_signals`
(real-data variant). Fields that the source maps to None when undefined are
`Option ℚ`; `rsi` is always a number (defaulting to 50.0). The ISO-8601
timestamp string is represented by the numeric time it formats. -/
structure PortfolioSignal where
  coin : String
  rsi : ℚ
  macd : MacdStatus
  bb_position : BBPosition
  sma_20 : Option ℚ
  sma_50 : Option ℚ
  ema_12 : Option ℚ
  ema_26 : Option ℚ
  volume_24h : Option ℚ
  portfolio_coins : List String
  timestamp : ℚ
  signal_strength : ℚ
  pair : String
  timeframe : String
deriving Repr, DecidableEq

/-- The `portfolio_signal` dict literal of
`MonitoringStrategy._check_and_send_signals` (lines 260-277): RSI defaults to
50.0 when undefined, the other indicator fields map undefined to None, the
strength is computed with an empty signals list. -/
def build_portfolio_signal (current previous : IndicatorRow) (pair : String)
    (now : ℚ) : PortfolioSignal :=
  { coin := extract_coin_symbol pair
    rsi := current.rsi.getD 50
    macd := determine_macd_status current previous
    bb_position := determine_bb_position current
    sma_20 := current.ma_20
    sma_50 := current.ma_50
    ema_12 := current.ema_12
    ema_26 := current.ema_26
    volume_24h := current.volume
    portfolio_coins := get_portfolio_coins_list
    timestamp := now
    signal_strength := calculate_signal_strength current []
    pair := pair
    timeframe := "5m" }

/-- How one evaluation cycle (`_check_and_send_signals`) ends: early return
for short data, early return under the rate limit, or a dispatch attempt
with the assembled payload. -/
inductive CycleOutcome where
  | insufficient_data
  | rate_limited
  | dispatched (payload : PortfolioSignal)
deriving Repr, DecidableEq

/-- The rate-limit gate of `_check_and_send_signals` (spec §4.3's
`should_suppress`): true iff a prior successful dispatch timestamp exists and
`now - last < window`. In the source: `if self.last_portfolio_signal:` (None
is falsy, a set datetime is truthy) then `if time_diff < window: return`. -/
def should_suppress (last : Option ℚ) (now window : ℚ) : Bool :=
  match last with
  | none => false
  | some t => now - t < window

/-- `MonitoringStrategy._check_and_send_signals` followed by the state update
of `_send_portfolio_webhook` on the dispatch path: length guard (< 50 rows),
rate-limit guard (hardcoded 300 s), then payload assembly from
`iloc[-1]` / `iloc[-2]` and the POST, whose transport outcome `http` is
supplied by the environment. Returns the state after the cycle and how the
cycle ended. -/
def run_cycle (st : StrategyState) (df : List IndicatorRow) (pair : String)
    (now : ℚ) (http : HttpOutcome) : StrategyState × CycleOutcome :=
  if df.length < 50 then (st, .insufficient_data)
  else if should_suppress st.last_portfolio_signal now 300 then
    (st, .rate_limited)
  else
    let current := df.getLastD emptyRow
    let previous := df.dropLast.getLastD emptyRow
    (send_portfolio_webhook st http now,
      .dispatched (build_portfolio_signal current previous pair now))

/-- `MonitoringStrategyMock.TEST_MODE`: always True in the mock class. -/
def TEST_MODE : Bool := true

/-- The mock's rate-limit window: `30 if self.TEST_MODE else 300`. -/
def mock_rate_limit : ℚ := if TEST_MODE then 30 else 300

/-- Per-instance state of `MonitoringStrategyMock`: the rate-limiter fields
plus the `mock_cycles` scenario counter. -/
structure MockState where
  last_portfolio_signal : Option ℚ
  last_signals : List (String × ℚ)
  mock_cycles : Nat
deriving Repr, DecidableEq

/-- `MonitoringStrategyMock._check_and_send_signals` (TEST_MODE path)
followed by the state update of its `_send_portfolio_webhook`: length guard,
rate-limit guard with window `mock_rate_limit`, then mock-data dispatch. The
mock payload itself comes from `_generate_mock_indicators`, which draws from
Python's `hash` and `random.uniform` and is therefore supplied here as the
parameter `mockPayload` (its content decides nothing in the cycle logic);
`mock_cycles` is incremented on the dispatch path exactly as in the source. -/
def run_cycle_mock (st : MockState) (df : List IndicatorRow)
    (mockPayload : PortfolioSignal) (now : ℚ) (http : HttpOutcome) :
    MockState × CycleOutcome :=
  if df.length < 50 then (st, .insufficient_data)
  else if should_suppress st.last_portfolio_signal now mock_rate_limit then
    (st, .rate_limited)
  else
    let st1 := { st with mock_cycles := st.mock_cycles + 1 }
    let st2 :=
      match http with
      | .transportError => st1
      | .response status _ =>
        if status = 200 then { st1 with last_portfolio_signal := some now }
        else st1
    (st2, .dispatched mockPayload)

/-- The dataframe as seen by the populate hooks: indicator rows plus the
`enter_long` / `exit_long` columns (a pandas scalar assignment
`dataframe[col] = 0` sets the column to 0 in every row). -/
structure TradeFrame where
  rows : List IndicatorRow
  enter_long : List ℤ
  exit_long : List ℤ
deriving Repr, DecidableEq

/-- `MonitoringStrategy.populate_entry_trend`: for a non-portfolio pair sets
`enter_long = 0` and returns; for a portfolio pair first runs
`_check_and_send_signals` (modelled by `run_cycle`), then sets
`enter_long = 0`. In both branches the column is 0 everywhere. -/
def populate_entry_trend (st : StrategyState) (df : TradeFrame)
    (pair : String) (now : ℚ) (http : HttpOutcome) :
    StrategyState × TradeFrame :=
  if pair ∈ PORTFOLIO_COINS then
    ((run_cycle st df.rows pair now http).1,
      { df with enter_long := List.replicate df.rows.length 0 })
  else
    (st, { df with enter_long := List.replicate df.rows.length 0 })

/-- `MonitoringStrategy.populate_exit_trend`: unconditionally sets
`exit_long = 0`. -/
def populate_exit_trend (df : TradeFrame) : TradeFrame :=
  { df with exit_long := List.replicate df.rows.length 0 }

/-- Modelled from the spec: the golden-cross rule of the discrete-event
classifier variant, which is not present under src/ (the sources hold only
the portfolio-signal variant). Spec §4.2: "Golden cross: previous.sma20 ≤
previous.sma50 AND current.sma20 > current.sma50 → high-strength event",
with undefined values non-firing. -/
def golden_cross_event (current previous : IndicatorRow) :
    Option SignalEvent :=
  match previous.ma_20, previous.ma_50, current.ma_20, current.ma_50 with
  | some p20, some p50, some c20, some c50 =>
    if p20 ≤ p50 ∧ c20 > c50 then some ⟨"golden_cross", Strength.high⟩
    else none
  | _, _, _, _ => none

/-- Modelled from the spec: the death-cross rule of the discrete-event
classifier variant, which is not present under src/. Spec §4.2: "Death
cross: previous.sma20 ≥ previous.sma50 AND current.sma20 < current.sma50 →
high-strength event", with undefined values non-firing. -/
def death_cross_event (current previous : IndicatorRow) :
    Option SignalEvent :=
  match previous.ma_20, previous.ma_50, current.ma_20, current.ma_50 with
  | some p20, some p50, some c20, some c50 =>
    if p20 ≥ p50 ∧ c20 < c50 then some ⟨"death_cross", Strength.high⟩
    else none
  | _, _, _, _ => none

/-- Concrete row with macd 2, macdsignal 1 (a bullish crossover current). -/
def rowBull : IndicatorRow := { macd := some 2, macdsignal := some 1 }

/-- Concrete row with macd 0, macdsignal 1 (macd at or below signal). -/
def rowPrevLow : IndicatorRow := { macd := some 0, macdsignal := some 1 }

/-- Concrete row: close 10 at bb_lower 10, bb_upper 12. -/
def rowAtLower : IndicatorRow :=
  { close := some 10, bb_upper := some 12, bb_lower := some 10 }

/-- Concrete row: close 11 strictly inside the bands 10..12. -/
def rowMiddle : IndicatorRow :=
  { close := some 11, bb_upper := some 12, bb_lower := some 10 }

/-- Concrete state with no prior dispatch. -/
def stFresh : StrategyState := { last_portfolio_signal := none, last_signals := [] }

/-- Concrete state whose last successful dispatch was at time 0. -/
def stRecent : StrategyState := { last_portfolio_signal := some 0, last_signals := [] }

/-- Concrete mock state with no prior dispatch. -/
def mstFresh : MockState :=
  { last_portfolio_signal := none, last_signals := [], mock_cycles := 0 }

/-- Concrete mock state whose last successful dispatch was at time 0. -/
def mstRecent : MockState :=
  { last_portfolio_signal := some 0, last_signals := [], mock_cycles := 0 }

/-- A 50-row dataframe of empty indicator rows. -/
def df50 : List IndicatorRow := List.replicate 50 emptyRow

/-- Concrete row with sma20 3 above sma50 2. -/
def rowSmaHigh : IndicatorRow := { ma_20 := some 3, ma_50 := some 2 }

/-- Concrete row with rsi and the five carried-through indicators defined. -/
def rowDefined : IndicatorRow :=
  { rsi := some 42, ma_20 := some 1, ma_50 := some 2, ema_12 := some 3,
    ema_26 := some 4, volume := some 5 }

/-- Concrete row with sma20 1 below sma50 2. -/
def rowSmaLow : IndicatorRow := { ma_20 := some 1, ma_50 := some 2 }

/-- C3: for every pair of indicator rows, `_determine_macd_status` returns
bullish_crossover iff prev.macd ≤ prev.macdsignal and curr.macd >
curr.macdsignal; bearish_crossover iff prev.macd ≥ prev.macdsignal and
curr.macd < curr.macdsignal; bearish_divergence iff curr.macd <
curr.macdsignal and neither crossover matched; neutral otherwise — and
whenever any of the four values is undefined the result is neutral (the
function is total, so no exception is possible). -/
theorem macd_status_classification (cur prev : IndicatorRow) :
    (∀ cm cs pm ps : ℚ, cur.macd = some cm → cur.macdsignal = some cs →
      prev.macd = some pm → prev.macdsignal = some ps →
      ((determine_macd_status cur prev = MacdStatus.bullish_crossover ↔
          pm ≤ ps ∧ cm > cs) ∧
       (determine_macd_status cur prev = MacdStatus.bearish_crossover ↔
          pm ≥ ps ∧ cm < cs) ∧
       (determine_macd_status cur prev = MacdStatus.bearish_divergence ↔
          cm < cs ∧ ¬(pm ≤ ps ∧ cm > cs) ∧ ¬(pm ≥ ps ∧ cm < cs)) ∧
       (determine_macd_status cur prev = MacdStatus.neutral ↔
          ¬(pm ≤ ps ∧ cm > cs) ∧ ¬(pm ≥ ps ∧ cm < cs) ∧ ¬(cm < cs)))) ∧
    ((cur.macd = none ∨ cur.macdsignal = none ∨ prev.macd = none ∨
        prev.macdsignal = none) →
      determine_macd_status cur prev = MacdStatus.neutral) := by
  constructor
  · intro cm cs pm ps hcm hcs hpm hps
    simp only [determine_macd_status, hcm, hcs, hpm, hps]
    refine ⟨?_, ?_, ?_, ?_⟩ <;> split_ifs with h1 h2 h3 <;> simp_all <;>
      (intros; linarith)
  · intro h
    rcases h with h | h | h | h <;>
      simp only [determine_macd_status, h] <;>
      rcases cur.macd with _ | cm <;>
      rcases cur.macdsignal with _ | cs <;>
      rcases prev.macd with _ | pm <;>
      rcases prev.macdsignal with _ | ps <;> rfl

/-- Witness for C3: a concrete bullish crossover, and a concrete undefined
row classified neutral. -/
theorem macd_status_classification_witness :
    determine_macd_status rowBull rowPrevLow = MacdStatus.bullish_crossover ∧
    determine_macd_status emptyRow rowPrevLow = MacdStatus.neutral := by
  constructor
  · exact ((macd_status_classification rowBull rowPrevLow).1 2 1 0 1
      rfl rfl rfl rfl).1.mpr ⟨by norm_num, by norm_num⟩
  · exact (macd_status_classification emptyRow rowPrevLow).2 (Or.inl rfl)

/-- C4: for every triple (close, bb_upper, bb_lower) with bb_lower <
bb_upper, `_determine_bb_position` is decided by the first matching rule in
the fixed order lower_band_bounce, upper_band_bounce, upper_band,
lower_band, middle_band — exactly one category results. -/
theorem bb_position_first_match (cur : IndicatorRow) (price up lo : ℚ)
    (hc : cur.close = some price) (hu : cur.bb_upper = some up)
    (hl : cur.bb_lower = some lo) (hlt : lo < up) :
    (price ≤ lo * 1.001 →
      determine_bb_position cur = BBPosition.lower_band_bounce) ∧
    (¬(price ≤ lo * 1.001) → price ≥ up * 0.999 →
      determine_bb_position cur = BBPosition.upper_band_bounce) ∧
    (¬(price ≤ lo * 1.001) → ¬(price ≥ up * 0.999) → price > up →
      determine_bb_position cur = BBPosition.upper_band) ∧
    (¬(price ≤ lo * 1.001) → ¬(price ≥ up * 0.999) → ¬(price > up) →
      price < lo → determine_bb_position cur = BBPosition.lower_band) ∧
    (¬(price ≤ lo * 1.001) → ¬(price ≥ up * 0.999) → ¬(price > up) →
      ¬(price < lo) → determine_bb_position cur = BBPosition.middle_band) := by
  simp only [determine_bb_position, hc, hu, hl]
  refine ⟨?_, ?_, ?_, ?_, ?_⟩ <;> intros <;> split_ifs <;> rfl

/-- Witness for C4: the concrete row classifies as lower_band_bounce by the
first rule. -/
theorem bb_position_first_match_witness :
    determine_bb_position rowAtLower = BBPosition.lower_band_bounce :=
  (bb_position_first_match rowAtLower 10 12 10 rfl rfl rfl (by norm_num)).1
    (by norm_num)

/-- C10: with defined close, bb_upper > 0 and bb_lower > 0, the categories
upper_band and lower_band are unreachable: the bounce rules (with their
0.999 / 1.001 tolerances) always fire first, leaving only
lower_band_bounce, upper_band_bounce and middle_band. -/
theorem bb_position_reachable (cur : IndicatorRow) (price up lo : ℚ)
    (hc : cur.close = some price) (hu : cur.bb_upper = some up)
    (hl : cur.bb_lower = some lo) (hup : 0 < up) (hlo : 0 < lo) :
    determine_bb_position cur = BBPosition.lower_band_bounce ∨
    determine_bb_position cur = BBPosition.upper_band_bounce ∨
    determine_bb_position cur = BBPosition.middle_band := by
  simp only [determine_bb_position, hc, hu, hl]
  split_ifs with h1 h2 h3 h4
  · exact Or.inl rfl
  · exact Or.inr (Or.inl rfl)
  · exfalso
    push_neg at h2
    nlinarith
  · exfalso
    push_neg at h1
    nlinarith
  · exact Or.inr (Or.inr rfl)

/-- Witness for C10: the concrete middle row lands in one of the three
reachable categories. -/
theorem bb_position_reachable_witness :
    determine_bb_position rowMiddle = BBPosition.lower_band_bounce ∨
    determine_bb_position rowMiddle = BBPosition.upper_band_bounce ∨
    determine_bb_position rowMiddle = BBPosition.middle_band :=
  bb_position_reachable rowMiddle 11 12 10 rfl rfl rfl (by norm_num)
    (by norm_num)

/-- C1 counterexample: the claim says the rate-limit timestamp is updated by
a dispatch exactly when the HTTP POST returns a 2xx status; at the concrete
input status 201 (a 2xx status, body flag parsed as success) the source's
`status_code == 200` test fails and the timestamp stays `none`, so the claim
as stated is false. -/
theorem webhook_2xx_update_refuted :
    ¬ (∀ (st : StrategyState) (now : ℚ) (s : ℕ) (b : Option Bool),
        200 ≤ s → s < 300 →
        (send_portfolio_webhook st (HttpOutcome.response s b)
          now).last_portfolio_signal = some now) := by
  intro h
  have h201 := h stFresh 5 201 (some true) (by norm_num) (by norm_num)
  simp [send_portfolio_webhook, stFresh] at h201

/-- C1 amended: the rate-limit timestamp is updated by a dispatch exactly
when the HTTP POST returns status 200, regardless of the application-level
success flag in the response body; on a transport failure or any status
other than 200 the whole rate-limiter state is unchanged. -/
theorem webhook_update_iff_status_200 (st : StrategyState) (now : ℚ) :
    (∀ b, send_portfolio_webhook st (HttpOutcome.response 200 b) now =
      { st with last_portfolio_signal := some now }) ∧
    send_portfolio_webhook st HttpOutcome.transportError now = st ∧
    (∀ s b, s ≠ 200 →
      send_portfolio_webhook st (HttpOutcome.response s b) now = st) := by
  refine ⟨fun b => ?_, rfl, fun s b hs => ?_⟩
  · simp [send_portfolio_webhook]
  · simp [send_portfolio_webhook, hs]

/-- Witness for the amended C1: a concrete 200 response with a failing body
flag still updates the timestamp; a concrete 500 response leaves the state
unchanged. -/
theorem webhook_update_iff_status_200_witness :
    send_portfolio_webhook stFresh (HttpOutcome.response 200 (some false)) 7 =
      { stFresh with last_portfolio_signal := some 7 } ∧
    send_portfolio_webhook stFresh (HttpOutcome.response 500 none) 7 =
      stFresh :=
  ⟨(webhook_update_iff_status_200 stFresh 7).1 (some false),
   (webhook_update_iff_status_200 stFresh 7).2.2 500 none (by norm_num)⟩

/-- Helper: against the empty previous dict (as `_calculate_signal_strength`
calls it), `_determine_macd_status` is always neutral, since the previous
macd/macdsignal lookups are undefined. -/
theorem macd_status_empty_prev (cur : IndicatorRow) :
    determine_macd_status cur emptyRow = MacdStatus.neutral := by
  rcases h1 : cur.macd with _ | a <;> rcases h2 : cur.macdsignal with _ | b <;>
    simp [determine_macd_status, h1, h2, emptyRow]

/-- C2: for every current row and signals list, `_calculate_signal_strength`
equals the clamp to [0,1] of 0.50 plus the RSI contribution (+0.20 if
RSI < 30, else +0.10 if RSI > 70, when defined), plus the MACD contribution
(+0.15 if the status computed for that row — against the empty previous
dict, as in the source — contains "bullish", else +0.10 if it contains
"bearish"), plus +0.10 if volume > 1.5 × volume_sma (both defined), plus
+0.05 if more than 2 discrete signals. -/
theorem signal_strength_formula (current : IndicatorRow)
    (signals : List SignalEvent) :
    calculate_signal_strength current signals =
      min 1 (max 0 ((0.5 : ℚ) +
        (match current.rsi with
         | some rsi => if rsi < 30 then 0.2 else if rsi > 70 then 0.1 else 0
         | none => 0) +
        (if statusContainsBullish (determine_macd_status current emptyRow)
          then 0.15
         else if statusContainsBearish (determine_macd_status current emptyRow)
          then 0.1
         else 0) +
        (match current.volume, current.volume_sma with
         | some v, some vs => if v > vs * 1.5 then 0.1 else 0
         | _, _ => 0) +
        (if signals.length > 2 then 0.05 else 0))) := by
  rcases hr : current.rsi with _ | r <;>
    rcases hv : current.volume with _ | v <;>
    rcases hvs : current.volume_sma with _ | vs <;>
    simp only [calculate_signal_strength, macd_status_empty_prev,
      statusContainsBullish, statusContainsBearish, hr, hv, hvs,
      Bool.false_eq_true, if_false] <;>
    split_ifs <;> norm_num [min_def, max_def]

/-- C5: with at least 50 rows, an evaluation cycle is rate-limit suppressed
(returns without dispatching) iff a prior successful dispatch timestamp
exists and now minus it is strictly below the window — 300 s in
`MonitoringStrategy`, 30 s in `MonitoringStrategyMock` (TEST_MODE); with no
prior dispatch the cycle is never suppressed, and a suppressed cycle leaves
the state unchanged. -/
theorem rate_limit_suppression (st : StrategyState) (mst : MockState)
    (df : List IndicatorRow) (pair : String) (mockPayload : PortfolioSignal)
    (now : ℚ) (http : HttpOutcome) (hlen : 50 ≤ df.length) :
    ((run_cycle st df pair now http).2 = CycleOutcome.rate_limited ↔
      ∃ t, st.last_portfolio_signal = some t ∧ now - t < 300) ∧
    ((run_cycle_mock mst df mockPayload now http).2 =
        CycleOutcome.rate_limited ↔
      ∃ t, mst.last_portfolio_signal = some t ∧ now - t < 30) ∧
    (st.last_portfolio_signal = none →
      (run_cycle st df pair now http).2 ≠ CycleOutcome.rate_limited) ∧
    (mst.last_portfolio_signal = none →
      (run_cycle_mock mst df mockPayload now http).2 ≠
        CycleOutcome.rate_limited) ∧
    ((run_cycle st df pair now http).2 = CycleOutcome.rate_limited →
      (run_cycle st df pair now http).1 = st) := by
  have hnl : ¬ df.length < 50 := by omega
  refine ⟨?_, ?_, ?_, ?_, ?_⟩
  · cases hss : should_suppress st.last_portfolio_signal now 300 with
    | false =>
      simp only [run_cycle, if_neg hnl, hss, Bool.false_eq_true, if_false]
      simp only [reduceCtorEq, false_iff, not_exists, not_and]
      intro t ht hd
      simp [should_suppress, ht, hd] at hss
    | true =>
      simp only [run_cycle, if_neg hnl, hss, if_true, true_iff]
      rcases hlast : st.last_portfolio_signal with _ | t
      · simp [should_suppress, hlast] at hss
      · exact ⟨t, rfl, by simpa [should_suppress, hlast] using hss⟩
  · cases hss : should_suppress mst.last_portfolio_signal now mock_rate_limit with
    | false =>
      simp only [run_cycle_mock, if_neg hnl, hss, Bool.false_eq_true, if_false]
      simp only [reduceCtorEq, false_iff, not_exists, not_and]
      intro t ht hd
      simp [should_suppress, mock_rate_limit, TEST_MODE, ht, hd] at hss
    | true =>
      simp only [run_cycle_mock, if_neg hnl, hss, if_true, true_iff]
      rcases hlast : mst.last_portfolio_signal with _ | t
      · simp [should_suppress, hlast] at hss
      · exact ⟨t, rfl,
          by simpa [should_suppress, mock_rate_limit, TEST_MODE, hlast]
            using hss⟩
  · intro hnone
    simp [run_cycle, hnl, should_suppress, hnone]
  · intro hnone
    simp [run_cycle_mock, hnl, should_suppress, hnone]
  · cases hss : should_suppress st.last_portfolio_signal now 300 with
    | false => simp [run_cycle, hnl, hss]
    | true => simp [run_cycle, hnl, hss]

/-- Witness for C5: with 50 rows and no prior dispatch the fresh cycle is
not suppressed; with a prior dispatch at time 0 and now 10 both strategies
suppress the cycle. -/
theorem rate_limit_suppression_witness :
    (run_cycle stFresh df50 "BTC/USDT" 10 HttpOutcome.transportError).2 ≠
      CycleOutcome.rate_limited ∧
    (run_cycle stRecent df50 "BTC/USDT" 10 HttpOutcome.transportError).2 =
      CycleOutcome.rate_limited ∧
    (run_cycle_mock mstRecent df50
        (build_portfolio_signal emptyRow emptyRow "BTC/USDT" 10) 10
        HttpOutcome.transportError).2 = CycleOutcome.rate_limited := by
  refine ⟨?_, ?_, ?_⟩
  · exact (rate_limit_suppression stFresh mstFresh df50 "BTC/USDT"
      (build_portfolio_signal emptyRow emptyRow "BTC/USDT" 10) 10
      HttpOutcome.transportError (by decide)).2.2.1 rfl
  · exact (rate_limit_suppression stRecent mstRecent df50 "BTC/USDT"
      (build_portfolio_signal emptyRow emptyRow "BTC/USDT" 10) 10
      HttpOutcome.transportError (by decide)).1.mpr
      ⟨0, rfl, by norm_num⟩
  · exact (rate_limit_suppression stRecent mstRecent df50 "BTC/USDT"
      (build_portfolio_signal emptyRow emptyRow "BTC/USDT" 10) 10
      HttpOutcome.transportError (by decide)).2.1.mpr
      ⟨0, rfl, by norm_num⟩

/-- C6: with fewer than 50 rows `_check_and_send_signals` returns early (the
function is total, so no exception): no dispatch is attempted and the whole
state — last_portfolio_signal and last_signals — is unchanged. -/
theorem insufficient_data_no_dispatch (st : StrategyState)
    (df : List IndicatorRow) (pair : String) (now : ℚ) (http : HttpOutcome)
    (hlen : df.length < 50) :
    run_cycle st df pair now http = (st, CycleOutcome.insufficient_data) := by
  simp [run_cycle, hlen]

/-- Witness for C6: an empty dataframe with a would-be-successful response
still results in no dispatch and an unchanged state. -/
theorem insufficient_data_no_dispatch_witness :
    run_cycle stRecent [] "BTC/USDT" 1000
        (HttpOutcome.response 200 (some true)) =
      (stRecent, CycleOutcome.insufficient_data) :=
  insufficient_data_no_dispatch stRecent [] "BTC/USDT" 1000
    (HttpOutcome.response 200 (some true)) (by decide)

/-- C7: in the assembled portfolio signal every undefined indicator among
sma_20, sma_50, ema_12, ema_26, volume_24h maps to null, RSI maps to 50.0
when undefined, and every defined value is carried through unchanged. -/
theorem payload_null_mapping (current previous : IndicatorRow)
    (pair : String) (now : ℚ) :
    ((current.rsi = none →
        (build_portfolio_signal current previous pair now).rsi = 50) ∧
      (∀ v : ℚ, current.rsi = some v →
        (build_portfolio_signal current previous pair now).rsi = v)) ∧
    ((current.ma_20 = none →
        (build_portfolio_signal current previous pair now).sma_20 = none) ∧
      (∀ v : ℚ, current.ma_20 = some v →
        (build_portfolio_signal current previous pair now).sma_20 = some v)) ∧
    ((current.ma_50 = none →
        (build_portfolio_signal current previous pair now).sma_50 = none) ∧
      (∀ v : ℚ, current.ma_50 = some v →
        (build_portfolio_signal current previous pair now).sma_50 = some v)) ∧
    ((current.ema_12 = none →
        (build_portfolio_signal current previous pair now).ema_12 = none) ∧
      (∀ v : ℚ, current.ema_12 = some v →
        (build_portfolio_signal current previous pair now).ema_12 = some v)) ∧
    ((current.ema_26 = none →
        (build_portfolio_signal current previous pair now).ema_26 = none) ∧
      (∀ v : ℚ, current.ema_26 = some v →
        (build_portfolio_signal current previous pair now).ema_26 = some v)) ∧
    ((current.volume = none →
        (build_portfolio_signal current previous pair now).volume_24h =
          none) ∧
      (∀ v : ℚ, current.volume = some v →
        (build_portfolio_signal current previous pair now).volume_24h =
          some v)) := by
  refine ⟨⟨?_, ?_⟩, ⟨?_, ?_⟩, ⟨?_, ?_⟩, ⟨?_, ?_⟩, ⟨?_, ?_⟩, ⟨?_, ?_⟩⟩ <;>
    intros <;> simp_all [build_portfolio_signal]

/-- Witness for C7: an all-undefined row yields rsi 50 and a null sma_20; a
defined row carries rsi 42 and sma_20 1 through unchanged. -/
theorem payload_null_mapping_witness :
    (build_portfolio_signal emptyRow emptyRow "BTC/USDT" 0).rsi = 50 ∧
    (build_portfolio_signal emptyRow emptyRow "BTC/USDT" 0).sma_20 = none ∧
    (build_portfolio_signal rowDefined emptyRow "BTC/USDT" 0).rsi = 42 ∧
    (build_portfolio_signal rowDefined emptyRow "BTC/USDT" 0).sma_20 =
      some 1 :=
  ⟨(payload_null_mapping emptyRow emptyRow "BTC/USDT" 0).1.1 rfl,
   (payload_null_mapping emptyRow emptyRow "BTC/USDT" 0).2.1.1 rfl,
   (payload_null_mapping rowDefined emptyRow "BTC/USDT" 0).1.2 42 rfl,
   (payload_null_mapping rowDefined emptyRow "BTC/USDT" 0).2.1.2 1 rfl⟩

/-- C8 (modelled from the spec, the discrete-event classifier being absent
from src/): the golden-cross event fires exactly when previous.sma20 ≤
previous.sma50 and current.sma20 > current.sma50, with high strength; the
death-cross event fires exactly when previous.sma20 ≥ previous.sma50 and
current.sma20 < current.sma50, with high strength; and on any adjacent pair
of candles where the SMA20/SMA50 three-way ordering is unchanged, neither
event fires. -/
theorem sma_cross_events (current previous : IndicatorRow)
    (p20 p50 c20 c50 : ℚ)
    (hp20 : previous.ma_20 = some p20) (hp50 : previous.ma_50 = some p50)
    (hc20 : current.ma_20 = some c20) (hc50 : current.ma_50 = some c50) :
    (golden_cross_event current previous =
        some ⟨"golden_cross", Strength.high⟩ ↔ p20 ≤ p50 ∧ c20 > c50) ∧
    (death_cross_event current previous =
        some ⟨"death_cross", Strength.high⟩ ↔ p20 ≥ p50 ∧ c20 < c50) ∧
    ((p20 < p50 ∧ c20 < c50) ∨ (p20 = p50 ∧ c20 = c50) ∨
        (p20 > p50 ∧ c20 > c50) →
      golden_cross_event current previous = none ∧
      death_cross_event current previous = none) := by
  simp only [golden_cross_event, death_cross_event, hp20, hp50, hc20, hc50]
  refine ⟨?_, ?_, ?_⟩
  · split_ifs with h <;> simp [h]
  · split_ifs with h <;> simp [h]
  · rintro (⟨h1, h2⟩ | ⟨h1, h2⟩ | ⟨h1, h2⟩) <;>
      refine ⟨?_, ?_⟩ <;> split_ifs with h <;> try rfl
    all_goals exact absurd h (by push_neg; intro hx; linarith)

/-- Witness for C8: the crossing candle pair fires a high-strength golden
cross; a subsequent pair with the same ordering fires no death cross. -/
theorem sma_cross_events_witness :
    golden_cross_event rowSmaHigh rowSmaLow =
      some ⟨"golden_cross", Strength.high⟩ ∧
    death_cross_event rowSmaHigh rowSmaHigh = none := by
  refine ⟨?_, ?_⟩
  · exact (sma_cross_events rowSmaHigh rowSmaLow 1 2 3 2
      rfl rfl rfl rfl).1.mpr ⟨by norm_num, by norm_num⟩
  · exact ((sma_cross_events rowSmaHigh rowSmaHigh 3 2 3 2
      rfl rfl rfl rfl).2.2
      (Or.inr (Or.inr ⟨by norm_num, by norm_num⟩))).2

/-- Helper: a column set to the scalar 0 is 0 in every row. -/
theorem all_zero_replicate (n : ℕ) :
    ((List.replicate n (0 : ℤ)).all fun x => x == 0) = true := by
  induction n with
  | zero => rfl
  | succ k ih => simp [List.replicate, ih]

/-- C9: `populate_entry_trend` always returns a frame whose enter_long
column is 0 in every row, and `populate_exit_trend` one whose exit_long
column is 0 in every row — no trade entry or exit signal is ever
produced. -/
theorem no_trade_signals (st : StrategyState) (df : TradeFrame)
    (pair : String) (now : ℚ) (http : HttpOutcome) :
    ((populate_entry_trend st df pair now http).2.enter_long.all
      (fun x => x == 0)) = true ∧
    ((populate_exit_trend df).exit_long.all (fun x => x == 0)) = true := by
  constructor
  · simp only [populate_entry_trend]
    split_ifs <;> exact all_zero_replicate df.rows.length
  · exact all_zero_replicate df.rows.length

end Monitoring
